import Mathlib

/-
Shallow embedding of the twikit-based collection scripts:
  * 1k.tweet.py        (checkpointed loop, product rotation)
  * 1k.tweet_2.py      (strategy / query-variation rotation)
  * 1k.tweet_3.py      (query-hash-keyed checkpoint, Latest only)
  * Dynamic_scrapping_X.py       (multi-account, bounded retry ladder)
  * Dynamic_scrapping/init.py    (per-day slicing, cursor loop guard)

Machine integers in the sources are Python ints (arbitrary precision),
embedded as Nat / Int.  Python `set` objects become `Finset String`,
CSV rows become `List String`, CSV files become `List (List String)`
(with `Option` marking a missing file).  Fallible operations (json
parsing, network fetches, `result.next()`) are represented by
`Option` / `Except` valued inputs.
-/

/-- A tweet record as the scripts consume it (`tweet.id`,
`tweet.user.screen_name`, `tweet.text`, `tweet.created_at`,
`retweet_count`, `favorite_count`, `reply_count`). -/
structure Tweet where
  id : String
  screenName : String
  text : String
  createdAt : String
  retweetCount : Nat
  favoriteCount : Nat
  replyCount : Nat
deriving DecidableEq, Repr

/-- The CSV row written for one tweet by `save_tweets_batch`
(all five scripts write the same seven-column shape). -/
def tweetRow (tw : Tweet) : List String :=
  [tw.id, "@" ++ tw.screenName, tw.text, tw.createdAt,
   toString tw.retweetCount, toString tw.favoriteCount, toString tw.replyCount]

/-- The header row written at init
(`['ID', 'Username', 'Text', 'Created At', 'Retweets', 'Likes', 'Replies']`). -/
def headerRow : List String :=
  ["ID", "Username", "Text", "Created At", "Retweets", "Likes", "Replies"]

/-- `save_tweets_batch(tweets, writer, existing_ids)` (identical logic in
1k.tweet.py:58, 1k.tweet_2.py:72, 1k.tweet_3.py:113, Dynamic_scrapping_X.py:122,
Dynamic_scrapping/init.py:117): for each tweet whose id is not yet in
`existing_ids`, write its row, add the id to the set, and count it.
Returns (rows appended to the sink, updated id set, new_count). -/
def save_tweets_batch : List Tweet → Finset String → List (List String) × Finset String × Nat
  | [], ids => ([], ids, 0)
  | tw :: rest, ids =>
    if tw.id ∈ ids then
      save_tweets_batch rest ids
    else
      let r := save_tweets_batch rest (insert tw.id ids)
      (tweetRow tw :: r.1, r.2.1, r.2.2 + 1)

/-- The ids read from a list of CSV rows: the first cell of every
non-empty row (`if row: ids.add(row[0])`). -/
def dataIds (rows : List (List String)) : List String :=
  rows.filterMap List.head?

/-- `init_existing_ids(csv_path)` (1k.tweet_3.py:101, Dynamic_scrapping_X.py:108,
Dynamic_scrapping/init.py:102; inlined in 1k.tweet.py:132-139): if the file is
missing the set is empty; otherwise skip the first row (`next(reader, None)`)
and collect the first column of every non-empty row. -/
def init_existing_ids (file : Option (List (List String))) : Finset String :=
  match file with
  | none => ∅
  | some rows => (dataIds (rows.drop 1)).toFinset

/-- One run's record-appending activity abstracted as a sequence of calls to
`save_tweets_batch`; returns the accumulated data rows and the final id set. -/
def runBatches : List (List Tweet) → List (List String) → Finset String →
    List (List String) × Finset String
  | [], sink, ids => (sink, ids)
  | b :: bs, sink, ids =>
    let r := save_tweets_batch b ids
    runBatches bs (sink ++ r.1) r.2.1

/- ===== Checkpoint store of 1k.tweet_3.py (query-hash identity) ===== -/

/-- A parsed checkpoint of 1k.tweet_3.py: `query_hash` (possibly absent in the
stored JSON, hence `Option`), `count`, `cursor`, `last_success_time`. -/
structure Ckpt3 where
  queryHash : Option String
  count : Nat
  cursor : Option String
  lastSuccessTime : Option String
deriving DecidableEq, Repr

/-- `DEFAULT_CKPT` of 1k.tweet_3.py:75, parameterised by the run's
`QUERY_HASH`: zero count, no cursor, no last-success time. -/
def default_ckpt (h : String) : Ckpt3 :=
  { queryHash := some h, count := 0, cursor := none, lastSuccessTime := none }

/-- `load_checkpoint()` of 1k.tweet_3.py:82-93.  The store argument models the
file system: `none` = file missing, `some none` = file exists but
`json.load` (or the subsequent field access) raises, `some (some d)` = file
parses to `d`.  A parsed checkpoint whose `query_hash` differs from the current
run's hash is discarded; every non-matching case yields the default. -/
def load_checkpoint (h : String) (store : Option (Option Ckpt3)) : Ckpt3 :=
  match store with
  | some (some data) => if data.queryHash ≠ some h then default_ckpt h else data
  | some none => default_ckpt h
  | none => default_ckpt h

/-- The checkpoint value that `save_checkpoint(data)` (1k.tweet_3.py:95-98)
durably stores while running under hash `h`: it overwrites `query_hash`
with `h` before dumping. -/
def save_ckpt_stored (h : String) (d : Ckpt3) : Ckpt3 :=
  { d with queryHash := some h }

/- ===== Backoff / rate-limit delays ===== -/

/-- The rate-limit wait of 1k.tweet.py:34 (and 1k.tweet_2.py:40,
1k.tweet_3.py:65): `max(reset_time - time.time(), 0) + 10`. -/
def rate_limit_wait (resetTime now : Int) : Int :=
  max (resetTime - now) 0 + 10

/-- The rate-limit wait of Dynamic_scrapping_X.py:72 and
Dynamic_scrapping/init.py:207: `max(reset_time - time.time(), 0) + 5`. -/
def x_rate_limit_wait (resetTime now : Int) : Int :=
  max (resetTime - now) 0 + 5

/-- One response of the search endpoint as seen by `safe_search`
(1k.tweet.py:26-41): a page, a `TooManyRequests` exception carrying an
optional `rate_limit_reset`, or any other exception. -/
inductive SResp where
  | ok (tweets : List Tweet) (nextCursor : Option String)
  | rateLimited (resetAt : Option Int)
  | err
deriving DecidableEq, Repr

/-- `safe_search` of 1k.tweet.py:26-41, driven by the list of successive
responses the endpoint gives to its (recursive) attempts.  Returns the final
result (`none` = the function returned None) and the list of delays slept, in
order.  On `TooManyRequests` it sleeps `max(reset - now, 0) + 10` (the reset
defaulting to `now + 900`) and retries; on any other error it sleeps 60 and
gives up. -/
def safe_search : Int → List SResp → Option (List Tweet × Option String) × List Int
  | _, [] => (none, [])
  | _, SResp.ok ts c :: _ => (some (ts, c), [])
  | now, SResp.rateLimited r :: rest =>
    let reset := r.getD (now + 900)
    let w := rate_limit_wait reset now
    let res := safe_search (now + w) rest
    (res.1, w :: res.2)
  | _, SResp.err :: _ => (none, [60])

/-- One per-attempt response inside `safe_search_with_retry`
(Dynamic_scrapping_X.py:60-90, Dynamic_scrapping/init.py:199-223). -/
inductive XResp where
  | ok (tweets : List Tweet) (nextCursor : Option String)
  | rateLimited (resetAt : Option Int)
  | err
deriving DecidableEq, Repr

/-- The attempt loop of `safe_search_with_retry`: the first successful attempt
returns its page; a `TooManyRequests` response (with or without a reset time)
sleeps and proceeds to the NEXT attempt of the bounded `for` loop, exactly like
a generic error; when the attempts are exhausted the function returns None. -/
def x_search_attempts : List XResp → Option (List Tweet × Option String)
  | [] => none
  | XResp.ok ts c :: _ => some (ts, c)
  | XResp.rateLimited _ :: rest => x_search_attempts rest
  | XResp.err :: rest => x_search_attempts rest

/-- `safe_search_with_retry` (Dynamic_scrapping_X.py:60-90) with its
`MAX_RETRIES = 3` attempt slots. -/
def safe_search_with_retry (r0 r1 r2 : XResp) : Option (List Tweet × Option String) :=
  x_search_attempts [r0, r1, r2]

/-- The `failures` update of Dynamic_scrapping_X.py's run loop (lines 230-243):
no result or an empty page increments the streak, a non-empty page resets it
to zero. -/
def x_body_failures (failures : Nat) (result : Option (List Tweet × Option String)) : Nat :=
  match result with
  | none => failures + 1
  | some (tweets, _) => if tweets = [] then failures + 1 else 0

/- ===== Strategy / query-variation rotation of 1k.tweet_2.py ===== -/

/-- `SEARCH_STRATEGIES` of 1k.tweet_2.py:20-23. -/
def SEARCH_STRATEGIES : List (String × Nat) :=
  [("Latest", 20), ("Top", 20)]

/-- The query-variation list built by `generate_query_variations`
(1k.tweet_2.py:131-152); the three date-bounded variants are parameterised by
the formatted date strings. -/
def query_variations (q d30 d60 d90 : String) : List String :=
  [q,
   q.replace "(to:thmanyahCompany)" "",
   q.replace "(ثمانية OR ثمانيه)" "ثمانية",
   q.replace "(ثمانية OR ثمانيه)" "ثمانيه",
   q.replace "lang:ar" "",
   q ++ " since:" ++ d30,
   q ++ " since:" ++ d60,
   q ++ " since:" ++ d90]

/-- `generate_query_variations(base_query, variation_index)`: selection is
`variations[index % len(variations)]`, total and cyclic. -/
def generate_query_variations (q d30 d60 d90 : String) (i : Nat) : String :=
  (query_variations q d30 d60 d90).getD (i % (query_variations q d30 d60 d90).length) q

/-- The rotator-relevant loop state of 1k.tweet_2.py's `run_all_operations`. -/
structure RotState where
  strategyIndex : Nat
  queryVariations : Nat
  cursor : Option String
  consecutiveFailures : Nat
  lastSuccessfulStrategy : Nat
  collected : Nat
deriving DecidableEq, Repr

/-- How a 1k.tweet_2.py iteration obtained (or failed to obtain) a
continuation cursor after recording new items: directly from
`result.next_cursor`, from `result.next().next_cursor`, or not at all
(the advanced page has no cursor, or `next()` raised). -/
inductive CursorFetch where
  | direct (c : String)
  | viaNext (c : Option String)
  | nextErr
deriving DecidableEq, Repr

/-- The outcome classification of one 1k.tweet_2.py iteration: `zeroNew`
covers all three branches that perform identical updates (exception raised,
no/empty result — both re-raised as exceptions — and `new_count == 0`);
`newItems n cf` is the `new_count > 0` branch. -/
inductive Iter2Out where
  | zeroNew
  | newItems (n : Nat) (cf : CursorFetch)
deriving DecidableEq, Repr

/-- The per-iteration state update of 1k.tweet_2.py:216-263.  On `zeroNew`:
failure streak +1, `strategy_index = (strategy_index+1) % len(SEARCH_STRATEGIES)`,
`query_variations = (query_variations+1) % 8`, cursor cleared.  On
`newItems`: count += n, streak reset, succeeding strategy recorded,
variations reset to 0; the cursor comes from `next_cursor` or `next()`, and
when neither yields one the strategy index advances and the cursor clears. -/
def step2 (s : RotState) : Iter2Out → RotState
  | Iter2Out.zeroNew =>
    { s with consecutiveFailures := s.consecutiveFailures + 1,
             strategyIndex := (s.strategyIndex + 1) % SEARCH_STRATEGIES.length,
             queryVariations := (s.queryVariations + 1) % 8,
             cursor := none }
  | Iter2Out.newItems n cf =>
    let base := { s with collected := s.collected + n,
                         consecutiveFailures := 0,
                         lastSuccessfulStrategy := s.strategyIndex,
                         queryVariations := 0 }
    match cf with
    | CursorFetch.direct c => { base with cursor := some c }
    | CursorFetch.viaNext (some c) => { base with cursor := some c }
    | CursorFetch.viaNext none =>
      { base with cursor := none,
                  strategyIndex := (s.strategyIndex + 1) % SEARCH_STRATEGIES.length }
    | CursorFetch.nextErr =>
      { base with cursor := none,
                  strategyIndex := (s.strategyIndex + 1) % SEARCH_STRATEGIES.length }

/- ===== Loop body of Dynamic_scrapping/init.py (events + stop reasons) ===== -/

/-- Observable events of one Dynamic_scrapping/init.py loop iteration, in
program order: CSV row writes, the `f.flush()`, the checkpoint save (carrying
the saved `count` and `cursor`), and the delay with its randint window. -/
inductive DSEv where
  | writeRow (r : List String)
  | flush
  | saveCkpt (count : Nat) (cursor : Option String)
  | delay (lo hi : Nat)
deriving DecidableEq, Repr

/-- Is the event a checkpoint save? -/
def DSEv.isSave : DSEv → Bool
  | DSEv.saveCkpt _ _ => true
  | _ => false

/-- Is the event a delay? -/
def DSEv.isDelay : DSEv → Bool
  | DSEv.delay _ _ => true
  | _ => false

/-- Is the event a CSV row write? -/
def DSEv.isWrite : DSEv → Bool
  | DSEv.writeRow _ => true
  | _ => false

/-- The terminal `break` reasons inside the Dynamic_scrapping/init.py loop
body: no continuation cursor, repeated cursor, three net-zero pages. -/
inductive DSStop where
  | noMorePages
  | cursorRepeated
  | noNewPages3
deriving DecidableEq, Repr

/-- Whether the loop body proceeds to the next iteration or breaks. -/
inductive DSOut where
  | next
  | stop (r : DSStop)
deriving DecidableEq, Repr

/-- Loop state of Dynamic_scrapping/init.py's `run` (lines 237-316).  Note the
source never resets `failures` on success. -/
structure DSState where
  collected : Nat
  cursor : Option String
  failures : Nat
  noNewPages : Nat
  seenCursors : Finset String
  ids : Finset String
  sink : List (List String)
deriving DecidableEq

/-- The fetch outcome of one Dynamic_scrapping/init.py iteration:
`safe_search_with_retry` returned None, or a page with its tweets, its
`next_cursor`, and the outcome of `result.next().next_cursor` (the `adv`
argument; `Except.error` = the `try` block raised). -/
inductive DSFetch where
  | failed
  | page (tweets : List Tweet) (nextCursor : Option String) (adv : Except Unit (Option String))

/-- Cursor continuation of Dynamic_scrapping/init.py:277-287: prefer the
page's own `next_cursor`; otherwise take `result.next().next_cursor`;
an exception leaves `new_cursor = None`. -/
def ds_new_cursor (nextC : Option String) (adv : Except Unit (Option String)) : Option String :=
  match nextC with
  | some c => some c
  | none =>
    match adv with
    | Except.ok oc => oc
    | Except.error _ => none

/-- Tail of every non-breaking Dynamic_scrapping/init.py iteration (lines
304-316): save the checkpoint, then break if `no_new_pages >= 3`, otherwise
sleep `randint(5,15)` when `failures == 0` and `randint(30,60)*failures`
otherwise. -/
def ds_after (s : DSState) (evs : List DSEv) : DSState × List DSEv × DSOut :=
  let evs1 := evs ++ [DSEv.saveCkpt s.collected s.cursor]
  if s.noNewPages ≥ 3 then
    (s, evs1, DSOut.stop DSStop.noNewPages3)
  else if s.failures = 0 then
    (s, evs1 ++ [DSEv.delay 5 15], DSOut.next)
  else
    (s, evs1 ++ [DSEv.delay (30 * s.failures) (60 * s.failures)], DSOut.next)

/-- The non-empty-page branch of the Dynamic_scrapping/init.py loop body
(lines 266-302): record the batch, flush, update `no_new_pages`, then either
break with no checkpoint save (`new_cursor` absent → NoMorePages, repeated
cursor → CursorRepeated) or remember the cursor and fall through to
`ds_after`. -/
def ds_success (s : DSState) (tweets : List Tweet) (nextC : Option String)
    (adv : Except Unit (Option String)) : DSState × List DSEv × DSOut :=
  let r := save_tweets_batch tweets s.ids
  let s1 : DSState :=
    { s with sink := s.sink ++ r.1, ids := r.2.1,
             collected := s.collected + r.2.2,
             noNewPages := if r.2.2 = 0 then s.noNewPages + 1 else 0 }
  let evs := r.1.map DSEv.writeRow ++ [DSEv.flush]
  match ds_new_cursor nextC adv with
  | none => (s1, evs, DSOut.stop DSStop.noMorePages)
  | some c =>
    if c ∈ s.seenCursors then
      ({ s1 with cursor := some c }, evs, DSOut.stop DSStop.cursorRepeated)
    else
      ds_after { s1 with cursor := some c, seenCursors := insert c s.seenCursors } evs

/-- One full loop-body execution of Dynamic_scrapping/init.py's `run`
(lines 253-316), given the iteration's fetch outcome.  A failed fetch keeps
the cursor (`# keep cursor; try again from same spot`) and increments
`failures`; an empty page increments `failures`; both fall through to
checkpoint-save and delay. -/
def ds_body (s : DSState) (f : DSFetch) : DSState × List DSEv × DSOut :=
  match f with
  | DSFetch.failed => ds_after { s with failures := s.failures + 1 } []
  | DSFetch.page tweets nextC adv =>
    if tweets = [] then ds_after { s with failures := s.failures + 1 } []
    else ds_success s tweets nextC adv

/- ===== Loop body of 1k.tweet_3.py (trace of events) ===== -/

/-- Loop state of 1k.tweet_3.py's `run` (lines 194-231). -/
structure T3State where
  collected : Nat
  cursor : Option String
  failures : Nat
  ids : Finset String
  sink : List (List String)
deriving DecidableEq

/-- Fetch outcome of one 1k.tweet_3.py iteration: `safe_search` returned None
(a transient error after its internal 60s sleep; rate limits are retried
inside `safe_search` and never surface), or a page.  `adv` is the outcome of
`result.next()`: its `next_cursor`, or an exception. -/
inductive T3Fetch where
  | failed
  | page (tweets : List Tweet) (adv : Except Unit (Option String))

/-- Observable events of one 1k.tweet_3.py iteration. -/
inductive T3Ev where
  | writeRow (r : List String)
  | saveCkpt (count : Nat) (cursor : Option String)
  | delay (lo hi : Nat)
deriving DecidableEq, Repr

/-- Tail of every 1k.tweet_3.py iteration (lines 225-231): checkpoint save,
then `randint(30,90)` when `failures == 0` else `randint(120,300)`. -/
def t3_after (s : T3State) (evs : List T3Ev) : T3State × List T3Ev :=
  let evs1 := evs ++ [T3Ev.saveCkpt s.collected s.cursor]
  if s.failures = 0 then (s, evs1 ++ [T3Ev.delay 30 90])
  else (s, evs1 ++ [T3Ev.delay 120 300])

/-- One loop-body execution of 1k.tweet_3.py's `run` (lines 195-231).  A
failed fetch and an empty page both increment `failures` and clear the
cursor; a non-empty page records the batch, resets `failures`, and always
advances pagination via `result.next()`. -/
def t3_body (s : T3State) (f : T3Fetch) : T3State × List T3Ev :=
  match f with
  | T3Fetch.failed =>
    t3_after { s with failures := s.failures + 1, cursor := none } []
  | T3Fetch.page tweets adv =>
    if tweets = [] then
      t3_after { s with failures := s.failures + 1, cursor := none } []
    else
      let r := save_tweets_batch tweets s.ids
      let cur : Option String :=
        match adv with
        | Except.ok oc => oc
        | Except.error _ => none
      t3_after { s with sink := s.sink ++ r.1, ids := r.2.1,
                        collected := s.collected + r.2.2,
                        failures := 0, cursor := cur }
        (r.1.map T3Ev.writeRow)

/- ===== Init / header logic ===== -/

/-- `new_file` of 1k.tweet_3.py:188 (same in Dynamic_scrapping_X.py:219 and
Dynamic_scrapping/init.py:243): the sink counts as new iff the file is
missing or has size zero. -/
def t3_new_file (file : Option (List (List String))) : Bool :=
  match file with
  | none => true
  | some rows => rows.isEmpty

/-- Sink contents right after init in 1k.tweet_3.py (lines 188-192): the
header row is appended iff `new_file`. -/
def t3_init_sink (file : Option (List (List String))) : List (List String) :=
  if t3_new_file file then file.getD [] ++ [headerRow] else file.getD []

/-- Sink contents right after init in 1k.tweet.py (lines 142-147): the header
row is appended iff the loaded checkpoint's `count` is 0 — the file's actual
emptiness is not consulted. -/
def t1_init_sink (ckCount : Nat) (file : Option (List (List String))) : List (List String) :=
  if ckCount = 0 then file.getD [] ++ [headerRow] else file.getD []

/- ===== Success-path pagination of 1k.tweet.py (for the implicit claim) ===== -/

/-- A result page of 1k.tweet.py: its tweets and its `next_cursor`. -/
structure SPage where
  tweets : List Tweet
  nextCursor : Option String
deriving DecidableEq, Repr

/-- `PRODUCTS` rotation of 1k.tweet.py:159-162. -/
def PRODUCTS : List String := ["Top", "Latest", "Media"]

/-- `products[(products.index(product) if product in products else 0 + 1) % 3]`. -/
def next_product (p : String) : String :=
  let ci := if p ∈ PRODUCTS then PRODUCTS.indexOf p else 0
  PRODUCTS.getD ((ci + 1) % PRODUCTS.length) "Latest"

/-- Loop state of 1k.tweet.py's `run_all_operations`. -/
structure T1State where
  collected : Nat
  cursor : Option String
  product : String
  ids : Finset String
  sink : List (List String)
deriving DecidableEq

/-- The success path of one 1k.tweet.py iteration (lines 180-206): record the
fetched page `p`, then take the next cursor from `p.next_cursor` if present;
otherwise fetch the FOLLOWING page via `result.next()` (`adv`) and use only
its `next_cursor` — the advanced page's tweets are never recorded.  If that
page has no cursor either, rotate the product and clear the cursor; if
`next()` raised, just clear the cursor. -/
def t1_record (s : T1State) (p : SPage) (adv : Except Unit SPage) : T1State :=
  let r := save_tweets_batch p.tweets s.ids
  let s1 : T1State :=
    { s with sink := s.sink ++ r.1, ids := r.2.1, collected := s.collected + r.2.2 }
  match p.nextCursor with
  | some c => { s1 with cursor := some c }
  | none =>
    match adv with
    | Except.ok q =>
      match q.nextCursor with
      | some c => { s1 with cursor := some c }
      | none => { s1 with cursor := none, product := next_product s.product }
    | Except.error _ => { s1 with cursor := none }

/- ===== Checkpoint store of 1k.tweet.py (no identity) ===== -/

/-- A parsed checkpoint of 1k.tweet.py (`{'count', 'cursor', 'product'}`):
no identity field of any kind is stored. -/
structure Ckpt1 where
  count : Nat
  cursor : Option String
  product : String
deriving DecidableEq, Repr

/-- The default checkpoint of 1k.tweet.py:51:
`{'count': 0, 'cursor': None, 'product': 'Latest'}`. -/
def default_ckpt1 : Ckpt1 :=
  { count := 0, cursor := none, product := "Latest" }

/-- `load_checkpoint()` of 1k.tweet.py:43-51.  `_runQuery` is the identity
(the QUERY) of the current run; the source function never consults it — it
returns whatever the file parses to, with no identity check.  A missing file
or a `json.load` failure yields the default (`none` = missing,
`some none` = unparsable, `some (some d)` = parses to `d`). -/
def t1_load_checkpoint (_runQuery : String) (store : Option (Option Ckpt1)) : Ckpt1 :=
  match store with
  | some (some d) => d
  | some none => default_ckpt1
  | none => default_ckpt1

/-- The checkpoint value `save_checkpoint(count, cursor, product)`
(1k.tweet.py:53-56) durably stores: exactly the three fields, independent of
the query the saving run was executing. -/
def t1_save_ckpt_stored (count : Nat) (cursor : Option String) (product : String) : Ckpt1 :=
  { count := count, cursor := cursor, product := product }

/- ===== Loop body of 1k.tweet.py (trace of events) ===== -/

/-- Observable events of one 1k.tweet.py loop iteration: CSV row writes, the
checkpoint save (carrying the saved `count`, `cursor` and `product`), and the
fixed 10-second delay. -/
inductive T1Ev where
  | writeRow (r : List String)
  | saveCkpt (count : Nat) (cursor : Option String) (product : String)
  | delay (n : Nat)
deriving DecidableEq, Repr

/-- Is the event a CSV row write? -/
def T1Ev.isWrite : T1Ev → Bool
  | T1Ev.writeRow _ => true
  | _ => false

/-- Is the event a checkpoint save? -/
def T1Ev.isSave : T1Ev → Bool
  | T1Ev.saveCkpt _ _ _ => true
  | _ => false

/-- Fetch outcome of one 1k.tweet.py iteration: `safe_search` returned None,
or a page with its tweets, its `next_cursor`, and the result of
`result.next()` (a whole page there, since its tweets exist even though only
its cursor is used). -/
inductive T1Fetch where
  | failed
  | page (tweets : List Tweet) (nextCursor : Option String) (adv : Except Unit SPage)

/-- One full loop-body execution of 1k.tweet.py's `run_all_operations`
(lines 150-213).  The no-result and empty-page branches rotate the product,
clear the cursor, save the checkpoint and `continue` (no delay, lines
156-178); the success branch records the page, advances the cursor via
`t1_record`, saves the checkpoint (line 206) and sleeps 10 seconds
(lines 211-213).  Every path saves before it leaves the body. -/
def t1_body (s : T1State) (f : T1Fetch) : T1State × List T1Ev :=
  match f with
  | T1Fetch.failed =>
    let s' := { s with product := next_product s.product, cursor := none }
    (s', [T1Ev.saveCkpt s'.collected s'.cursor s'.product])
  | T1Fetch.page tweets nextC adv =>
    if tweets = [] then
      let s' := { s with product := next_product s.product, cursor := none }
      (s', [T1Ev.saveCkpt s'.collected s'.cursor s'.product])
    else
      let s1 := t1_record s ⟨tweets, nextC⟩ adv
      (s1, (save_tweets_batch tweets s.ids).1.map T1Ev.writeRow ++
        [T1Ev.saveCkpt s1.collected s1.cursor s1.product, T1Ev.delay 10])

/- ===================== Theorems ===================== -/

theorem dataIds_append (a b : List (List String)) :
    dataIds (a ++ b) = dataIds a ++ dataIds b := by
  simp [dataIds]

theorem dataIds_cons_tweetRow (tw : Tweet) (l : List (List String)) :
    dataIds (tweetRow tw :: l) = tw.id :: dataIds l := by
  simp [dataIds, tweetRow]

theorem stb_pres : ∀ (ts : List Tweet) (prev : List String) (ids : Finset String),
    prev.Nodup → ids = prev.toFinset →
    (prev ++ dataIds (save_tweets_batch ts ids).1).Nodup ∧
    (save_tweets_batch ts ids).2.1 = (prev ++ dataIds (save_tweets_batch ts ids).1).toFinset
  | [], prev, ids, hnd, hids => by
    simp [save_tweets_batch, dataIds, hnd, hids]
  | tw :: rest, prev, ids, hnd, hids => by
    by_cases hmem : tw.id ∈ ids
    · have := stb_pres rest prev ids hnd hids
      simpa [save_tweets_batch, hmem] using this
    · have hnp : tw.id ∉ prev := by
        intro hc
        exact hmem (hids ▸ List.mem_toFinset.2 hc)
      have hnd' : (prev ++ [tw.id]).Nodup := by
        simp [List.nodup_append, hnd, hnp]
      have hids' : insert tw.id ids = (prev ++ [tw.id]).toFinset := by
        ext x
        simp [hids, or_comm]
      have h := stb_pres rest (prev ++ [tw.id]) (insert tw.id ids) hnd' hids'
      simp only [save_tweets_batch, if_neg hmem]
      simpa [dataIds_cons_tweetRow, List.append_assoc] using h

theorem runBatches_pres : ∀ (bs : List (List Tweet)) (sink : List (List String))
    (ids : Finset String),
    (dataIds sink).Nodup → ids = (dataIds sink).toFinset →
    (dataIds (runBatches bs sink ids).1).Nodup ∧
    (runBatches bs sink ids).2 = (dataIds (runBatches bs sink ids).1).toFinset
  | [], sink, ids, hnd, hids => by
    simpa [runBatches] using ⟨hnd, hids⟩
  | b :: bs, sink, ids, hnd, hids => by
    have h := stb_pres b (dataIds sink) ids hnd hids
    have h2 := runBatches_pres bs (sink ++ (save_tweets_batch b ids).1)
      (save_tweets_batch b ids).2.1
      (by simpa [dataIds_append] using h.1)
      (by simpa [dataIds_append] using h.2)
    simpa [runBatches] using h2

/-- C1: the Output Sink never acquires two data rows with the same id: an item
is appended only if its id is not in the Dedup Index and every append inserts
the id in the same step; `init_existing_ids` rehydrates exactly the ids in the
first column of the existing sink's data rows (empty when the file is missing
or empty); and any run of batch appends starting from the rehydrated index
keeps the data-row ids duplicate-free and the index equal to that id set. -/
theorem spec_c1_dedup_invariant :
    (init_existing_ids none = ∅) ∧
    (init_existing_ids (some []) = ∅) ∧
    (∀ rows, init_existing_ids (some rows) = (dataIds (rows.drop 1)).toFinset) ∧
    (∀ (tw : Tweet) (ids : Finset String),
       (tw.id ∈ ids → save_tweets_batch [tw] ids = ([], ids, 0)) ∧
       (tw.id ∉ ids → save_tweets_batch [tw] ids = ([tweetRow tw], insert tw.id ids, 1))) ∧
    (∀ (file : Option (List (List String))) (batches : List (List Tweet)),
       (dataIds ((file.getD []).drop 1)).Nodup →
       (dataIds (runBatches batches ((file.getD []).drop 1) (init_existing_ids file)).1).Nodup ∧
       (runBatches batches ((file.getD []).drop 1) (init_existing_ids file)).2 =
         (dataIds (runBatches batches ((file.getD []).drop 1) (init_existing_ids file)).1).toFinset) := by
  refine ⟨rfl, rfl, fun rows => rfl, ?_, ?_⟩
  · intro tw ids
    constructor
    · intro h; simp [save_tweets_batch, h]
    · intro h; simp [save_tweets_batch, h]
  · intro file batches hnd
    apply runBatches_pres batches _ _ hnd
    cases file with
    | none => simp [init_existing_ids, dataIds]
    | some rows => rfl

/-- Witness for C1: a concrete existing sink (header plus one data row) and
one new batch, with the Nodup hypothesis discharged by computation. -/
theorem spec_c1_dedup_invariant_witness :
    (dataIds (((some [headerRow, ["7", "@u", "t", "d", "0", "0", "0"]] :
        Option (List (List String))).getD []).drop 1)).Nodup ∧
    ((dataIds (runBatches [[⟨"8", "v", "x", "e", 1, 2, 3⟩]]
        (((some [headerRow, ["7", "@u", "t", "d", "0", "0", "0"]] :
          Option (List (List String))).getD []).drop 1)
        (init_existing_ids (some [headerRow, ["7", "@u", "t", "d", "0", "0", "0"]]))).1).Nodup ∧
     (runBatches [[⟨"8", "v", "x", "e", 1, 2, 3⟩]]
        (((some [headerRow, ["7", "@u", "t", "d", "0", "0", "0"]] :
          Option (List (List String))).getD []).drop 1)
        (init_existing_ids (some [headerRow, ["7", "@u", "t", "d", "0", "0", "0"]]))).2 =
       (dataIds (runBatches [[⟨"8", "v", "x", "e", 1, 2, 3⟩]]
        (((some [headerRow, ["7", "@u", "t", "d", "0", "0", "0"]] :
          Option (List (List String))).getD []).drop 1)
        (init_existing_ids (some [headerRow, ["7", "@u", "t", "d", "0", "0", "0"]]))).1).toFinset) :=
  ⟨by decide, spec_c1_dedup_invariant.2.2.2.2
    (some [headerRow, ["7", "@u", "t", "d", "0", "0", "0"]])
    [[⟨"8", "v", "x", "e", 1, 2, 3⟩]] (by decide)⟩

/-- C3 counterexample: 1k.tweet.py's `load_checkpoint` (lines 43-51) performs
no identity check — the checkpoint `save_checkpoint(42, "cur", "Top")` stored
by a run executing query "queryX" is, when loaded by a run executing the
different query "queryY", returned verbatim and is not the zero default, so
"loading a checkpoint saved under identity X while running under identity Y
always yields the default state" is false for this cited source. -/
theorem spec_c3_no_identity_check_cex :
    ("queryX" : String) ≠ "queryY" ∧
    t1_load_checkpoint "queryY"
        (some (some (t1_save_ckpt_stored 42 (some "cur") "Top"))) =
      t1_save_ckpt_stored 42 (some "cur") "Top" ∧
    t1_load_checkpoint "queryY"
        (some (some (t1_save_ckpt_stored 42 (some "cur") "Top"))) ≠
      default_ckpt1 :=
  ⟨by decide, rfl, by decide⟩

/-- C3 (amended): in 1k.tweet_3.py, `load_checkpoint` returns the persisted
checkpoint only when the file exists, parses, and its stored `query_hash`
matches the current run's hash; a missing file, a corrupt file, and a hash
mismatch all yield the zero-valued default (the function is total, so no
error escapes), and a checkpoint saved under hash X loaded under hash Y ≠ X
yields the default.  In 1k.tweet.py, `load_checkpoint` has no identity check:
missing and corrupt files yield the default, but any parsed checkpoint is
returned unchanged regardless of the current run's query — the result is
identical for every run identity, so stale cross-query checkpoints are
resumed verbatim. -/
theorem spec_c3_load_checkpoint :
    (∀ h : String, load_checkpoint h none = default_ckpt h) ∧
    (∀ h : String, load_checkpoint h (some none) = default_ckpt h) ∧
    (∀ (h : String) (d : Ckpt3), d.queryHash = some h →
       load_checkpoint h (some (some d)) = d) ∧
    (∀ (h : String) (d : Ckpt3), d.queryHash ≠ some h →
       load_checkpoint h (some (some d)) = default_ckpt h) ∧
    (∀ (x y : String) (d : Ckpt3), x ≠ y →
       load_checkpoint y (some (some (save_ckpt_stored x d))) = default_ckpt y) ∧
    (∀ q : String, t1_load_checkpoint q none = default_ckpt1) ∧
    (∀ q : String, t1_load_checkpoint q (some none) = default_ckpt1) ∧
    (∀ (q : String) (d : Ckpt1), t1_load_checkpoint q (some (some d)) = d) ∧
    (∀ (x y : String) (st : Option (Option Ckpt1)),
       t1_load_checkpoint x st = t1_load_checkpoint y st) := by
  refine ⟨fun h => rfl, fun h => rfl, ?_, ?_, ?_,
    fun q => rfl, fun q => rfl, fun q d => rfl, fun x y st => rfl⟩
  · intro h d hd
    simp [load_checkpoint, hd]
  · intro h d hd
    simp [load_checkpoint, hd]
  · intro x y d hxy
    have : (save_ckpt_stored x d).queryHash ≠ some y := by
      simp [save_ckpt_stored, hxy]
    simp [load_checkpoint, this]

/-- Witness for C3 (amended): concrete hashes "X" and "Y" with "X" ≠ "Y" for
the tweet_3 loader — a matching load returns the stored checkpoint and a
cross-identity load returns the default — and a concrete missing-file load of
the tweet.py loader returning its default. -/
theorem spec_c3_load_checkpoint_witness :
    ((⟨some "X", 7, some "cur", none⟩ : Ckpt3).queryHash = some "X" ∧
     load_checkpoint "X" (some (some ⟨some "X", 7, some "cur", none⟩)) =
       ⟨some "X", 7, some "cur", none⟩) ∧
    ("X" ≠ "Y" ∧
     load_checkpoint "Y" (some (some (save_ckpt_stored "X" ⟨some "X", 7, some "cur", none⟩))) =
       default_ckpt "Y") ∧
    t1_load_checkpoint "queryX" none = default_ckpt1 :=
  ⟨⟨by decide, spec_c3_load_checkpoint.2.2.1 "X" ⟨some "X", 7, some "cur", none⟩ (by decide)⟩,
   ⟨by decide,
    spec_c3_load_checkpoint.2.2.2.2.1 "X" "Y" ⟨some "X", 7, some "cur", none⟩ (by decide)⟩,
   spec_c3_load_checkpoint.2.2.2.2.2.1 "queryX"⟩

/-- C4 (code bug): in `safe_search_with_retry` a `TooManyRequests` response
consumes one of the `MAX_RETRIES = 3` attempts even when it carries a reset
time (the code's own comment claims it continues "without counting as a
failure"), so three consecutive rate-limited responses exhaust the attempts,
the function returns None, and the run loop increments the consecutive-failure
streak from 0 to 1 — rate limiting alone changes the failure counter. -/
theorem spec_c4_rate_limit_increments_failures :
    safe_search_with_retry (XResp.rateLimited (some 100)) (XResp.rateLimited (some 100))
        (XResp.rateLimited (some 100)) = none ∧
    x_body_failures 0 (safe_search_with_retry (XResp.rateLimited (some 100))
        (XResp.rateLimited (some 100)) (XResp.rateLimited (some 100))) = 1 ∧
    x_body_failures 0 (some ([⟨"1", "u", "t", "d", 0, 0, 0⟩], none)) = 0 :=
  ⟨rfl, rfl, rfl⟩

/-- C5: the delay after `RateLimited(resetAt)` equals
`max(resetAt − now, 0) + margin` (margin 10 in 1k.tweet.py, 5 in
Dynamic_scrapping_X.py); for `resetAt = now + 500` it is 510, inside
`[500, 500 + margin]`; and in `safe_search` that delay is exactly what is
slept for the rate-limited attempt, overriding the generic 60-second error
sleep (shown for contrast on the error branch). -/
theorem spec_c5_rate_limit_delay_bounds :
    (∀ now : Int, rate_limit_wait (now + 500) now = 510) ∧
    (∀ now : Int, 500 ≤ rate_limit_wait (now + 500) now ∧
       rate_limit_wait (now + 500) now ≤ 500 + 10) ∧
    (∀ now : Int, x_rate_limit_wait (now + 500) now = 505 ∧
       500 ≤ x_rate_limit_wait (now + 500) now ∧
       x_rate_limit_wait (now + 500) now ≤ 500 + 5) ∧
    (∀ (now : Int) (rest : List SResp),
       (safe_search now (SResp.rateLimited (some (now + 500)) :: rest)).2.head? =
         some (rate_limit_wait (now + 500) now)) ∧
    (∀ (now : Int) (rest : List SResp),
       (safe_search now (SResp.err :: rest)).2 = [60]) := by
  have key : ∀ now : Int, rate_limit_wait (now + 500) now = 510 := by
    intro now
    have h : now + 500 - now = (500 : Int) := by ring
    simp [rate_limit_wait, h]
  have keyx : ∀ now : Int, x_rate_limit_wait (now + 500) now = 505 := by
    intro now
    have h : now + 500 - now = (500 : Int) := by ring
    simp [x_rate_limit_wait, h]
  refine ⟨key, ?_, ?_, ?_, ?_⟩
  · intro now
    rw [key now]
    exact ⟨by norm_num, by norm_num⟩
  · intro now
    refine ⟨keyx now, ?_, ?_⟩ <;> rw [keyx now] <;> norm_num
  · intro now rest
    simp [safe_search]
  · intro now rest
    simp [safe_search]

/-- C6 counterexample: an iteration of 1k.tweet_2.py that yields one new item
but whose page has no usable continuation (`result.next()` returns a page
without a cursor) ADVANCES `strategy_index` from 0 to 1, so the claim that a
≥1-new-item iteration leaves `strategyIndex` unchanged is false. -/
theorem spec_c6_success_advances_strategy_cex :
    (⟨0, 3, some "x", 2, 0, 0⟩ : RotState).strategyIndex = 0 ∧
    (step2 ⟨0, 3, some "x", 2, 0, 0⟩
      (Iter2Out.newItems 1 (CursorFetch.viaNext none))).strategyIndex = 1 :=
  ⟨rfl, rfl⟩

/-- C6 (amended): a zero-net-new or error iteration advances
`strategyIndex = (strategyIndex+1) mod len(strategies)` and
`queryVariations = (queryVariations+1) mod 8` (8 = len(variations)) and clears
the cursor; a ≥1-new-item iteration resets `queryVariations` to 0, records the
succeeding strategy and resets the failure streak, and leaves `strategyIndex`
unchanged exactly when a continuation cursor was obtained — when pagination is
exhausted or the page advance raises, `strategyIndex` advances and the cursor
clears. -/
theorem spec_c6_rotator_amended :
    (SEARCH_STRATEGIES.length = 2) ∧
    (∀ q d30 d60 d90 : String, (query_variations q d30 d60 d90).length = 8) ∧
    (∀ s : RotState,
       (step2 s Iter2Out.zeroNew).strategyIndex =
         (s.strategyIndex + 1) % SEARCH_STRATEGIES.length ∧
       (step2 s Iter2Out.zeroNew).queryVariations = (s.queryVariations + 1) % 8 ∧
       (step2 s Iter2Out.zeroNew).cursor = none ∧
       (step2 s Iter2Out.zeroNew).consecutiveFailures = s.consecutiveFailures + 1) ∧
    (∀ (s : RotState) (n : Nat) (c : String),
       (step2 s (Iter2Out.newItems n (CursorFetch.direct c))).strategyIndex =
           s.strategyIndex ∧
       (step2 s (Iter2Out.newItems n (CursorFetch.direct c))).cursor = some c ∧
       (step2 s (Iter2Out.newItems n (CursorFetch.viaNext (some c)))).strategyIndex =
           s.strategyIndex ∧
       (step2 s (Iter2Out.newItems n (CursorFetch.viaNext (some c)))).cursor = some c) ∧
    (∀ (s : RotState) (n : Nat) (cf : CursorFetch),
       (step2 s (Iter2Out.newItems n cf)).queryVariations = 0 ∧
       (step2 s (Iter2Out.newItems n cf)).lastSuccessfulStrategy = s.strategyIndex ∧
       (step2 s (Iter2Out.newItems n cf)).consecutiveFailures = 0 ∧
       (step2 s (Iter2Out.newItems n cf)).collected = s.collected + n) ∧
    (∀ (s : RotState) (n : Nat),
       (step2 s (Iter2Out.newItems n (CursorFetch.viaNext none))).strategyIndex =
         (s.strategyIndex + 1) % SEARCH_STRATEGIES.length ∧
       (step2 s (Iter2Out.newItems n (CursorFetch.viaNext none))).cursor = none ∧
       (step2 s (Iter2Out.newItems n CursorFetch.nextErr)).strategyIndex =
         (s.strategyIndex + 1) % SEARCH_STRATEGIES.length ∧
       (step2 s (Iter2Out.newItems n CursorFetch.nextErr)).cursor = none) := by
  refine ⟨rfl, fun q d30 d60 d90 => rfl, fun s => ⟨rfl, rfl, rfl, rfl⟩,
    fun s n c => ⟨rfl, rfl, rfl, rfl⟩, ?_, fun s n => ⟨rfl, rfl, rfl, rfl⟩⟩
  intro s n cf
  cases cf with
  | direct c => exact ⟨rfl, rfl, rfl, rfl⟩
  | viaNext c => cases c with
    | none => exact ⟨rfl, rfl, rfl, rfl⟩
    | some c => exact ⟨rfl, rfl, rfl, rfl⟩
  | nextErr => exact ⟨rfl, rfl, rfl, rfl⟩

/-- C8 counterexample: 1k.tweet.py decides the header on the loaded
checkpoint's `count`, not on sink emptiness — with a zero-count checkpoint
over a non-empty sink it appends a second header row. -/
theorem spec_c8_header_cex :
    t3_new_file (some [headerRow, ["9", "@u", "t", "d", "0", "0", "0"]]) = false ∧
    t1_init_sink 0 (some [headerRow, ["9", "@u", "t", "d", "0", "0", "0"]]) =
      [headerRow, ["9", "@u", "t", "d", "0", "0", "0"], headerRow] ∧
    (t1_init_sink 0 (some [headerRow, ["9", "@u", "t", "d", "0", "0", "0"]])).count
      headerRow = 2 :=
  ⟨rfl, rfl, rfl⟩

/-- C8 (amended): in 1k.tweet_3.py (and the Dynamic_scrapping variants) the
header is written iff the sink was missing or zero-length when opened; in
1k.tweet.py the header is written iff the loaded checkpoint count is 0, so
a zero-count checkpoint over a non-empty sink produces a duplicate header. -/
theorem spec_c8_header_amended :
    (∀ file : Option (List (List String)),
       t3_new_file file = true ↔ (file = none ∨ file.getD [] = [])) ∧
    (∀ file : Option (List (List String)),
       t3_new_file file = true → t3_init_sink file = file.getD [] ++ [headerRow]) ∧
    (∀ file : Option (List (List String)),
       t3_new_file file = false → t3_init_sink file = file.getD []) ∧
    (∀ (n : Nat) (file : Option (List (List String))),
       n = 0 → t1_init_sink n file = file.getD [] ++ [headerRow]) ∧
    (∀ (n : Nat) (file : Option (List (List String))),
       n ≠ 0 → t1_init_sink n file = file.getD []) ∧
    (∀ l : List (List String), l ++ [headerRow] ≠ l) := by
  refine ⟨?_, ?_, ?_, ?_, ?_, ?_⟩
  · intro file
    cases file with
    | none => simp [t3_new_file]
    | some rows => simp [t3_new_file, List.isEmpty_iff]
  · intro file h; simp [t3_init_sink, h]
  · intro file h; simp [t3_init_sink, h]
  · intro n file h; simp [t1_init_sink, h]
  · intro n file h; simp [t1_init_sink, h]
  · intro l h
    have := congrArg List.length h
    simp at this

/-- Witness for C8 (amended): concrete instances of each implication —
an empty sink gets a header, a non-empty sink does not (tweet_3 variant),
and a zero-count checkpoint forces a header (tweet.py variant). -/
theorem spec_c8_header_amended_witness :
    (t3_new_file (some ([] : List (List String))) = true ∧
     t3_init_sink (some ([] : List (List String))) = [headerRow]) ∧
    (t3_new_file (some [headerRow]) = false ∧
     t3_init_sink (some [headerRow]) = [headerRow]) ∧
    (t1_init_sink 0 none = [headerRow] ∧
     t1_init_sink 5 (some [headerRow]) = [headerRow]) :=
  ⟨⟨rfl, spec_c8_header_amended.2.1 (some []) rfl⟩,
   ⟨rfl, spec_c8_header_amended.2.2.1 (some [headerRow]) rfl⟩,
   ⟨spec_c8_header_amended.2.2.2.1 0 none rfl,
    spec_c8_header_amended.2.2.2.2.1 5 (some [headerRow]) (by decide)⟩⟩

/-- C9 counterexample: a failed-fetch iteration of 1k.tweet_3.py does more to
loop state than increment the failure streak — it also clears the pagination
cursor (from `some "abc"` to `none`), so "its only surfaced effect on loop
state is a failure-streak increment followed by a delay" is false. -/
theorem spec_c9_failure_clears_cursor_cex :
    (⟨5, some "abc", 0, ∅, []⟩ : T3State).cursor = some "abc" ∧
    (t3_body ⟨5, some "abc", 0, ∅, []⟩ T3Fetch.failed).1.cursor = none ∧
    (t3_body ⟨5, some "abc", 0, ∅, []⟩ T3Fetch.failed).1.failures = 1 :=
  ⟨rfl, rfl, rfl⟩

/-- C9 (amended): an iteration of 1k.tweet_3.py whose fetch surfaces no result
(a transient error; rate limits are retried inside `safe_search` and never
surface) is atomic for collected data — no row appended, dedup index and
collected count unchanged — and its surfaced loop-state effects are exactly a
failure-streak increment and the clearing of the pagination cursor, followed
by a checkpoint save and a slow-window delay (no write events occur). -/
theorem spec_c9_failure_atomic_amended : ∀ s : T3State,
    (t3_body s T3Fetch.failed).1.sink = s.sink ∧
    (t3_body s T3Fetch.failed).1.ids = s.ids ∧
    (t3_body s T3Fetch.failed).1.collected = s.collected ∧
    (t3_body s T3Fetch.failed).1.failures = s.failures + 1 ∧
    (t3_body s T3Fetch.failed).1.cursor = none ∧
    (t3_body s T3Fetch.failed).2 =
      [T3Ev.saveCkpt s.collected none, T3Ev.delay 120 300] := by
  intro s
  refine ⟨rfl, rfl, rfl, rfl, rfl, ?_⟩
  simp [t3_body, t3_after]

theorem ds_after_state (s : DSState) (evs : List DSEv) : (ds_after s evs).1 = s := by
  simp only [ds_after]
  split_ifs <;> rfl

theorem ds_after_next_trace (s : DSState) (evs : List DSEv)
    (h : (ds_after s evs).2.2 = DSOut.next) :
    ∃ lo hi, (ds_after s evs).2.1 =
      evs ++ [DSEv.saveCkpt s.collected s.cursor, DSEv.delay lo hi] := by
  unfold ds_after at h ⊢
  by_cases h1 : s.noNewPages ≥ 3
  · simp [h1] at h
  · by_cases h2 : s.failures = 0
    · exact ⟨5, 15, by simp [h1, h2]⟩
    · exact ⟨30 * s.failures, 60 * s.failures, by simp [h1, h2]⟩

theorem ds_success_next_shape (s : DSState) (tweets : List Tweet) (nextC : Option String)
    (adv : Except Unit (Option String)) (c : String)
    (hc : ds_new_cursor nextC adv = some c) (hm : c ∉ s.seenCursors) :
    ds_success s tweets nextC adv =
      ds_after
        { s with sink := s.sink ++ (save_tweets_batch tweets s.ids).1,
                 ids := (save_tweets_batch tweets s.ids).2.1,
                 collected := s.collected + (save_tweets_batch tweets s.ids).2.2,
                 noNewPages := if (save_tweets_batch tweets s.ids).2.2 = 0 then
                     s.noNewPages + 1 else 0,
                 cursor := some c,
                 seenCursors := insert c s.seenCursors }
        ((save_tweets_batch tweets s.ids).1.map DSEv.writeRow ++ [DSEv.flush]) := by
  unfold ds_success
  rw [hc]
  simp [hm]

theorem ds_success_repeat (s : DSState) (tweets : List Tweet) (nextC : Option String)
    (adv : Except Unit (Option String)) (c : String)
    (hc : ds_new_cursor nextC adv = some c) (hm : c ∈ s.seenCursors) :
    (ds_success s tweets nextC adv).2.2 = DSOut.stop DSStop.cursorRepeated := by
  unfold ds_success
  rw [hc]
  simp [hm]

theorem ds_success_seen (s : DSState) (tweets : List Tweet) (nextC : Option String)
    (adv : Except Unit (Option String)) (c : String)
    (hc : ds_new_cursor nextC adv = some c)
    (h : (ds_success s tweets nextC adv).2.2 = DSOut.next) :
    (ds_success s tweets nextC adv).1.seenCursors = insert c s.seenCursors := by
  by_cases hm : c ∈ s.seenCursors
  · rw [ds_success_repeat s tweets nextC adv c hc hm] at h
    simp at h
  · rw [ds_success_next_shape s tweets nextC adv c hc hm, ds_after_state]

/-- C2 counterexample: an iteration of Dynamic_scrapping/init.py's run loop
that records one new tweet and then finds no continuation cursor exits the
loop body via the NoMorePages `break`: its trace contains a row write but no
checkpoint save, and the in-memory collected count has advanced — a loop-body
exit with an unpersisted state change. -/
theorem spec_c2_break_skips_checkpoint_cex :
    ((ds_body ⟨0, none, 0, 0, ∅, ∅, []⟩
        (DSFetch.page [⟨"1", "u", "t", "d", 0, 0, 0⟩] none (Except.ok none))).2.1.all
        (fun e => !e.isSave) = true) ∧
    ((ds_body ⟨0, none, 0, 0, ∅, ∅, []⟩
        (DSFetch.page [⟨"1", "u", "t", "d", 0, 0, 0⟩] none (Except.ok none))).2.1.any
        DSEv.isWrite = true) ∧
    ((ds_body ⟨0, none, 0, 0, ∅, ∅, []⟩
        (DSFetch.page [⟨"1", "u", "t", "d", 0, 0, 0⟩] none (Except.ok none))).2.2 =
        DSOut.stop DSStop.noMorePages) ∧
    ((ds_body ⟨0, none, 0, 0, ∅, ∅, []⟩
        (DSFetch.page [⟨"1", "u", "t", "d", 0, 0, 0⟩] none (Except.ok none))).1.collected = 1) := by
  refine ⟨?_, ?_, ?_, ?_⟩ <;> decide

/-- C2 (amended): in 1k.tweet.py's `run_all_operations`, EVERY loop-body path
persists the checkpoint after the iteration's record writes — the trace is
writes, then the save of the final state, then at most the 10-second delay —
so no path reaches its delay or leaves the body with an unpersisted state
change; in Dynamic_scrapping/init.py the same holds for every iteration that
reaches its delay (writes, then the save of the final count and cursor, then
the delay), but the NoMorePages and CursorRepeated `break` exits leave the
loop body without any checkpoint save. -/
theorem spec_c2_checkpoint_before_delay :
    (∀ (s : T1State) (f : T1Fetch),
       ∃ ws tail,
         (t1_body s f).2 =
           ws ++ T1Ev.saveCkpt (t1_body s f).1.collected (t1_body s f).1.cursor
             (t1_body s f).1.product :: tail ∧
         (∀ e ∈ ws, e.isWrite = true) ∧
         (tail = [] ∨ tail = [T1Ev.delay 10])) ∧
    (∀ (s : DSState) (f : DSFetch),
       (ds_body s f).2.2 = DSOut.next →
       ∃ ws lo hi,
         (ds_body s f).2.1 =
           ws ++ [DSEv.saveCkpt (ds_body s f).1.collected (ds_body s f).1.cursor,
                  DSEv.delay lo hi] ∧
         ∀ e ∈ ws, e.isSave = false ∧ e.isDelay = false) := by
  constructor
  · intro s f
    cases f with
    | failed =>
      exact ⟨[], [], by simp [t1_body], by simp, Or.inl rfl⟩
    | page tweets nextC adv =>
      by_cases ht : tweets = []
      · exact ⟨[], [], by simp [t1_body, ht], by simp, Or.inl rfl⟩
      · refine ⟨(save_tweets_batch tweets s.ids).1.map T1Ev.writeRow, [T1Ev.delay 10],
          by simp [t1_body, ht], ?_, Or.inr rfl⟩
        intro e he
        obtain ⟨r, _, rfl⟩ := List.mem_map.1 he
        rfl
  · intro s f h
    cases f with
    | failed =>
      simp only [ds_body] at h ⊢
      rw [ds_after_state]
      obtain ⟨lo, hi, htr⟩ := ds_after_next_trace _ [] h
      exact ⟨[], lo, hi, by simpa using htr, by simp⟩
    | page tweets nextC adv =>
      by_cases ht : tweets = []
      · simp only [ds_body, if_pos ht] at h ⊢
        rw [ds_after_state]
        obtain ⟨lo, hi, htr⟩ := ds_after_next_trace _ [] h
        exact ⟨[], lo, hi, by simpa using htr, by simp⟩
      · simp only [ds_body, if_neg ht] at h ⊢
        cases hc : ds_new_cursor nextC adv with
        | none =>
          exfalso
          unfold ds_success at h
          rw [hc] at h
          simp at h
        | some c =>
          by_cases hm : c ∈ s.seenCursors
          · rw [ds_success_repeat s tweets nextC adv c hc hm] at h
            simp at h
          · rw [ds_success_next_shape s tweets nextC adv c hc hm] at h ⊢
            rw [ds_after_state]
            obtain ⟨lo, hi, htr⟩ := ds_after_next_trace _ _ h
            refine ⟨(save_tweets_batch tweets s.ids).1.map DSEv.writeRow ++ [DSEv.flush],
              lo, hi, by simpa using htr, ?_⟩
            intro e he
            rcases List.mem_append.1 he with hw | hf
            · obtain ⟨r, _, rfl⟩ := List.mem_map.1 hw
              exact ⟨rfl, rfl⟩
            · rcases List.mem_singleton.1 hf with rfl
              exact ⟨rfl, rfl⟩

/-- Witness for C2 (amended): a concrete failed-fetch iteration of each of the
two cited loops — the 1k.tweet.py body always yields the writes-save-delay
shape, and the init.py iteration reaches its delay with the write-free
save-then-delay trace. -/
theorem spec_c2_checkpoint_before_delay_witness :
    (∃ ws tail,
      (t1_body ⟨0, none, "Latest", ∅, []⟩ T1Fetch.failed).2 =
        ws ++ T1Ev.saveCkpt
            (t1_body ⟨0, none, "Latest", ∅, []⟩ T1Fetch.failed).1.collected
            (t1_body ⟨0, none, "Latest", ∅, []⟩ T1Fetch.failed).1.cursor
            (t1_body ⟨0, none, "Latest", ∅, []⟩ T1Fetch.failed).1.product :: tail ∧
      (∀ e ∈ ws, e.isWrite = true) ∧
      (tail = [] ∨ tail = [T1Ev.delay 10])) ∧
    (ds_body ⟨0, none, 0, 0, ∅, ∅, []⟩ DSFetch.failed).2.2 = DSOut.next ∧
    (∃ ws lo hi,
      (ds_body ⟨0, none, 0, 0, ∅, ∅, []⟩ DSFetch.failed).2.1 =
        ws ++ [DSEv.saveCkpt (ds_body ⟨0, none, 0, 0, ∅, ∅, []⟩ DSFetch.failed).1.collected
                 (ds_body ⟨0, none, 0, 0, ∅, ∅, []⟩ DSFetch.failed).1.cursor,
               DSEv.delay lo hi] ∧
      ∀ e ∈ ws, e.isSave = false ∧ e.isDelay = false) :=
  ⟨spec_c2_checkpoint_before_delay.1 ⟨0, none, "Latest", ∅, []⟩ T1Fetch.failed,
   by decide,
   spec_c2_checkpoint_before_delay.2 ⟨0, none, 0, 0, ∅, ∅, []⟩ DSFetch.failed (by decide)⟩

/-- C7: if a successful Dynamic_scrapping/init.py iteration obtains cursor `c`
and proceeds, then a second consecutive successful iteration that obtains the
same cursor `c` makes the loop body stop with the CursorRepeated exit — the
loop terminates instead of advancing forever on a repeating cursor. -/
theorem spec_c7_cursor_repeat_stops (s : DSState) (t1 t2 : List Tweet) (c : String)
    (a1 a2 : Except Unit (Option String))
    (h1 : t1 ≠ []) (h2 : t2 ≠ [])
    (hcont : (ds_body s (DSFetch.page t1 (some c) a1)).2.2 = DSOut.next) :
    (ds_body ((ds_body s (DSFetch.page t1 (some c) a1)).1)
        (DSFetch.page t2 (some c) a2)).2.2 = DSOut.stop DSStop.cursorRepeated := by
  have e1 : ds_body s (DSFetch.page t1 (some c) a1) = ds_success s t1 (some c) a1 := by
    simp [ds_body, h1]
  rw [e1] at hcont ⊢
  have hseen := ds_success_seen s t1 (some c) a1 c rfl hcont
  have e2 : ds_body ((ds_success s t1 (some c) a1).1) (DSFetch.page t2 (some c) a2) =
      ds_success ((ds_success s t1 (some c) a1).1) t2 (some c) a2 := by
    simp [ds_body, h2]
  rw [e2]
  exact ds_success_repeat _ t2 (some c) a2 c rfl
    (by rw [hseen]; exact Finset.mem_insert_self c _)

/-- Witness for C7: a concrete mock client returning a non-empty page with
`nextCursor = "c1"` twice in a row — the first iteration proceeds, the second
stops with CursorRepeated. -/
theorem spec_c7_cursor_repeat_stops_witness :
    ([⟨"1", "u", "t", "d", 0, 0, 0⟩] : List Tweet) ≠ [] ∧
    (ds_body ⟨0, none, 0, 0, ∅, ∅, []⟩
       (DSFetch.page [⟨"1", "u", "t", "d", 0, 0, 0⟩] (some "c1") (Except.ok none))).2.2 =
      DSOut.next ∧
    (ds_body ((ds_body ⟨0, none, 0, 0, ∅, ∅, []⟩
        (DSFetch.page [⟨"1", "u", "t", "d", 0, 0, 0⟩] (some "c1") (Except.ok none))).1)
        (DSFetch.page [⟨"2", "v", "t", "d", 0, 0, 0⟩] (some "c1") (Except.ok none))).2.2 =
      DSOut.stop DSStop.cursorRepeated :=
  ⟨by decide, by decide,
   spec_c7_cursor_repeat_stops ⟨0, none, 0, 0, ∅, ∅, []⟩
     [⟨"1", "u", "t", "d", 0, 0, 0⟩] [⟨"2", "v", "t", "d", 0, 0, 0⟩] "c1"
     (Except.ok none) (Except.ok none) (by decide) (by decide) (by decide)⟩

/-- C10 (implicit): in 1k.tweet.py's success path, when the recorded page has
no continuation token of its own, the engine advances via `result.next()` but
uses the advanced-to page ONLY to read a cursor: the sink, dedup index and
collected count after the iteration are exactly those produced by recording
the original page's tweets (the advanced page's tweets never reach
`save_tweets_batch`), and the new cursor is the advanced page's `next_cursor`,
which points past its items.  The closed conjunct runs two such iterations
against a concrete mock client: page A (tweet "a", no cursor) advances through
page B (tweet "b", cursor "c2"); the fetch at "c2" returns page C (tweet "c");
tweet "b" is skipped entirely — absent from the final index and data rows. -/
theorem spec_c10_advanced_page_items_skipped :
    (∀ (s : T1State) (p q : SPage), p.nextCursor = none →
       (t1_record s p (Except.ok q)).sink =
           s.sink ++ (save_tweets_batch p.tweets s.ids).1 ∧
       (t1_record s p (Except.ok q)).ids = (save_tweets_batch p.tweets s.ids).2.1 ∧
       (t1_record s p (Except.ok q)).collected =
           s.collected + (save_tweets_batch p.tweets s.ids).2.2 ∧
       (t1_record s p (Except.ok q)).cursor = q.nextCursor) ∧
    ((t1_record ⟨0, none, "Latest", ∅, []⟩ ⟨[⟨"a", "u", "t", "d", 0, 0, 0⟩], none⟩
         (Except.ok ⟨[⟨"b", "u", "t", "d", 0, 0, 0⟩], some "c2"⟩)).cursor = some "c2" ∧
     "b" ∉ (t1_record
         (t1_record ⟨0, none, "Latest", ∅, []⟩ ⟨[⟨"a", "u", "t", "d", 0, 0, 0⟩], none⟩
           (Except.ok ⟨[⟨"b", "u", "t", "d", 0, 0, 0⟩], some "c2"⟩))
         ⟨[⟨"c", "v", "t", "d", 0, 0, 0⟩], none⟩ (Except.error ())).ids ∧
     "a" ∈ (t1_record
         (t1_record ⟨0, none, "Latest", ∅, []⟩ ⟨[⟨"a", "u", "t", "d", 0, 0, 0⟩], none⟩
           (Except.ok ⟨[⟨"b", "u", "t", "d", 0, 0, 0⟩], some "c2"⟩))
         ⟨[⟨"c", "v", "t", "d", 0, 0, 0⟩], none⟩ (Except.error ())).ids ∧
     "c" ∈ (t1_record
         (t1_record ⟨0, none, "Latest", ∅, []⟩ ⟨[⟨"a", "u", "t", "d", 0, 0, 0⟩], none⟩
           (Except.ok ⟨[⟨"b", "u", "t", "d", 0, 0, 0⟩], some "c2"⟩))
         ⟨[⟨"c", "v", "t", "d", 0, 0, 0⟩], none⟩ (Except.error ())).ids ∧
     (t1_record
         (t1_record ⟨0, none, "Latest", ∅, []⟩ ⟨[⟨"a", "u", "t", "d", 0, 0, 0⟩], none⟩
           (Except.ok ⟨[⟨"b", "u", "t", "d", 0, 0, 0⟩], some "c2"⟩))
         ⟨[⟨"c", "v", "t", "d", 0, 0, 0⟩], none⟩ (Except.error ())).collected = 2 ∧
     dataIds (t1_record
         (t1_record ⟨0, none, "Latest", ∅, []⟩ ⟨[⟨"a", "u", "t", "d", 0, 0, 0⟩], none⟩
           (Except.ok ⟨[⟨"b", "u", "t", "d", 0, 0, 0⟩], some "c2"⟩))
         ⟨[⟨"c", "v", "t", "d", 0, 0, 0⟩], none⟩ (Except.error ())).sink = ["a", "c"]) := by
  constructor
  · intro s p q h
    cases hq : q.nextCursor with
    | none => simp [t1_record, h, hq]
    | some c => simp [t1_record, h, hq]
  · refine ⟨?_, ?_, ?_, ?_, ?_, ?_⟩ <;> decide

/-- Witness for C10: the universally quantified part applied to the concrete
first iteration of the mock client above. -/
theorem spec_c10_advanced_page_items_skipped_witness :
    ((⟨[⟨"a", "u", "t", "d", 0, 0, 0⟩], none⟩ : SPage).nextCursor = none) ∧
    ((t1_record ⟨0, none, "Latest", ∅, []⟩ ⟨[⟨"a", "u", "t", "d", 0, 0, 0⟩], none⟩
        (Except.ok ⟨[⟨"b", "u", "t", "d", 0, 0, 0⟩], some "c2"⟩)).sink =
        ([] : List (List String)) ++
          (save_tweets_batch [⟨"a", "u", "t", "d", 0, 0, 0⟩] ∅).1 ∧
     (t1_record ⟨0, none, "Latest", ∅, []⟩ ⟨[⟨"a", "u", "t", "d", 0, 0, 0⟩], none⟩
        (Except.ok ⟨[⟨"b", "u", "t", "d", 0, 0, 0⟩], some "c2"⟩)).ids =
        (save_tweets_batch [⟨"a", "u", "t", "d", 0, 0, 0⟩] ∅).2.1 ∧
     (t1_record ⟨0, none, "Latest", ∅, []⟩ ⟨[⟨"a", "u", "t", "d", 0, 0, 0⟩], none⟩
        (Except.ok ⟨[⟨"b", "u", "t", "d", 0, 0, 0⟩], some "c2"⟩)).collected =
        0 + (save_tweets_batch [⟨"a", "u", "t", "d", 0, 0, 0⟩] ∅).2.2 ∧
     (t1_record ⟨0, none, "Latest", ∅, []⟩ ⟨[⟨"a", "u", "t", "d", 0, 0, 0⟩], none⟩
        (Except.ok ⟨[⟨"b", "u", "t", "d", 0, 0, 0⟩], some "c2"⟩)).cursor =
        (⟨[⟨"b", "u", "t", "d", 0, 0, 0⟩], some "c2"⟩ : SPage).nextCursor) :=
  ⟨rfl, spec_c10_advanced_page_items_skipped.1 ⟨0, none, "Latest", ∅, []⟩
    ⟨[⟨"a", "u", "t", "d", 0, 0, 0⟩], none⟩
    ⟨[⟨"b", "u", "t", "d", 0, 0, 0⟩], some "c2"⟩ rfl⟩
